import Mathlib

/-!
Shallow embedding of the demand-matching core of the fleet API
(`app/routers/demand.py`): the availability predicate, the haversine
distance calculator, and the `/demand/check` handler `check_demand`,
together with the persistent records it reads (`app/models.py`).

Conventions: Python `date` values are modelled as `Int` (days on a
totally ordered axis; only `≤` comparisons are used by the code);
floating-point coordinates and distances are modelled as `ℝ`; the
nullable columns are `Option`s; SQLAlchemy's `Column.ilike(pattern)`
is modelled by a case-insensitive SQL LIKE matcher applied to the raw
pattern string, exactly as the code passes it (no wildcards are added).
-/

namespace FleetApi

/-- SQL LIKE pattern matching on character lists: `%` matches any run of
characters, `_` matches exactly one, every other character matches itself.
No escape character (the code never sets one). -/
def likeMatch : List Char → List Char → Bool
  | [], s => s.isEmpty
  | '%' :: ps, s => (s.tails).any fun suffix => likeMatch ps suffix
  | '_' :: ps, s =>
    match s with
    | [] => false
    | _ :: s1 => likeMatch ps s1
  | p :: ps, s =>
    match s with
    | [] => false
    | c :: s1 => (p == c) && likeMatch ps s1

/-- ASCII lower-casing of a string, as SQL `lower()` and Python `str.lower()`
apply it to the ASCII identifiers this data uses. (`String.toLower` computes
the same list but by well-founded recursion, which blocks kernel evaluation.) -/
def lowerStr (s : String) : String := ⟨s.data.map Char.toLower⟩

/-- `column.ilike(pattern)`: SQL LIKE after lower-casing both sides. -/
def ilike (col pat : String) : Bool :=
  likeMatch (lowerStr pat).data (lowerStr col).data

/-- Case-insensitive substring test (the spec's matching notion, used only
to compare the spec's words against the code's `ilike`). -/
def substrCI (needle hay : String) : Bool :=
  (lowerStr hay).data.tails.any fun suffix => (lowerStr needle).data.isPrefixOf suffix

/-- Row of the `workshops` table (`app/models.py`). -/
structure Workshop where
  workshop_id : String
  camp_name : String
  location_lat : Option ℝ
  location_lon : Option ℝ

/-- Row of the `equipment` table (`app/models.py`). -/
structure Equipment where
  equipment_id : Int
  equipment_name : String
  camp_name : String
  region : Option String
  status : String
  next_maintenance_date : Option Int
  start_date : Option Int
  end_date : Option Int

/-- The store the handler queries: the two tables it reads, in row order
(`query(...).first()` takes the first row, `.all()` preserves order). -/
structure DB where
  workshops : List Workshop
  equipment : List Equipment

/-- `math.radians`: degrees to radians. -/
noncomputable def radians (deg : ℝ) : ℝ := deg * (Real.pi / 180)

/-- Body of `haversine_km` once all four coordinates are present:
`2 * R * asin(sqrt(a))` with `R = 6371.0`. -/
noncomputable def haversine_core (lat1 lon1 lat2 lon2 : ℝ) : ℝ :=
  2 * 6371.0 * Real.arcsin (Real.sqrt
    (Real.sin (radians (lat2 - lat1) / 2) ^ 2 +
      Real.cos (radians lat1) * Real.cos (radians lat2) *
        Real.sin (radians (lon2 - lon1) / 2) ^ 2))

/-- `haversine_km(lat1, lon1, lat2, lon2)`: `None` when any of the four
coordinates is `None`, otherwise the haversine distance. -/
noncomputable def haversine_km :
    Option ℝ → Option ℝ → Option ℝ → Option ℝ → Option ℝ
  | some lat1, some lon1, some lat2, some lon2 =>
    some (haversine_core lat1 lon1 lat2 lon2)
  | _, _, _, _ => none

/-- The availability test `is_available` defined inside `check_demand`. -/
def is_available (e : Equipment) (start_date end_date : Int) : Bool :=
  if e.status ≠ "ReadyToUse" then false
  else
    match e.start_date, e.end_date with
    | some s, some t => ! (decide (s ≤ end_date ∧ start_date ≤ t))
    | _, _ => true

/-- Python's `round(x, 1)`: to the nearest tenth.  (Mathlib's `round` breaks
exact halves upward where Python breaks them to even; no claim touches an
exact half.) -/
noncomputable def round1 (x : ℝ) : ℝ := (round (10 * x) : ℤ) / 10

/-- The `ready`/`maint` tallying loop over a candidate camp's equipment:
`UnderMaintenance` counts unconditionally, `ReadyToUse` counts when
`is_available` passes, everything else counts in neither. -/
def tally (s t : Int) : List Equipment → Nat × Nat
  | [] => (0, 0)
  | e :: rest =>
    let rm := tally s t rest
    if e.status == "UnderMaintenance" then (rm.1, rm.2 + 1)
    else if e.status == "ReadyToUse" && is_available e s t then
      (rm.1 + 1, rm.2)
    else rm

/-- One element of the `alternatives` list in the response. -/
structure AltEntry where
  camp_name : String
  workshop_id : String
  distance_km : ℝ
  location_lat : Option ℝ
  location_lon : Option ℝ
  ready_to_use : Nat
  under_maintenance : Nat

/-- One loop iteration of the alternatives scan: `none` when the workshop
is skipped (home camp, unknown distance, or out of radius), otherwise the
emitted entry. -/
noncomputable def buildAlt (db : DB) (camp_name equipment_name : String)
    (start_date end_date : Int) (radius_km : ℝ) (home_ws ws : Workshop) :
    Option AltEntry :=
  if lowerStr ws.camp_name = lowerStr camp_name then none
  else
    match haversine_km home_ws.location_lat home_ws.location_lon
        ws.location_lat ws.location_lon with
    | none => none
    | some dist =>
      if radius_km < dist then none
      else
        let eq := db.equipment.filter fun e =>
          ilike e.camp_name ws.camp_name && ilike e.equipment_name equipment_name
        let rm := tally start_date end_date eq
        some { camp_name := ws.camp_name
               workshop_id := ws.workshop_id
               distance_km := round1 dist
               location_lat := ws.location_lat
               location_lon := ws.location_lon
               ready_to_use := rm.1
               under_maintenance := rm.2 }

/-- Sort key order of `alts.sort(key=lambda x: (x["distance_km"],
-x["counts"]["ready_to_use"]))`: ascending distance, then descending
ready count. -/
def altLE (a b : AltEntry) : Prop :=
  a.distance_km < b.distance_km ∨
    (a.distance_km = b.distance_km ∧ b.ready_to_use ≤ a.ready_to_use)

noncomputable instance : DecidableRel altLE := Classical.decRel _

/-- Python's stable `list.sort` by the key above.  A stable sort over a
total preorder is unique, so insertion sort computes the same list. -/
noncomputable def sortAlts (l : List AltEntry) : List AltEntry :=
  List.insertionSort altLE l

/-- The alternatives scan: one pass over all workshops, one optional entry
each. -/
noncomputable def rawAlts (db : DB) (camp_name equipment_name : String)
    (start_date end_date : Int) (radius_km : ℝ) (home_ws : Workshop) :
    List AltEntry :=
  db.workshops.filterMap
    (buildAlt db camp_name equipment_name start_date end_date radius_km home_ws)

/-- The `HTTPException` payload. -/
structure HTTPError where
  status_code : Nat
  detail : String

/-- The response envelope of `/demand/check` (nested dicts flattened into
one record, field per leaf). -/
structure DemandResult where
  camp_name : String
  req_equipment_name : String
  req_start_date : Int
  req_end_date : Int
  req_quantity : Int
  available : Nat
  meets_requirement : Bool
  show_map : Bool
  center_lat : Option ℝ
  center_lon : Option ℝ
  radius_km : ℝ
  alternatives : List AltEntry

/-- The `/demand/check` handler `check_demand`. -/
noncomputable def check_demand (db : DB) (camp_name equipment_name : String)
    (start_date end_date : Int) (quantity : Int) (radius_km : ℝ) :
    Except HTTPError DemandResult :=
  match db.workshops.find? (fun w => ilike w.camp_name camp_name) with
  | none =>
    .error ⟨404, "Camp '" ++ camp_name ++ "' not found in workshops table"⟩
  | some home_ws =>
    let q_home := db.equipment.filter fun e =>
      ilike e.camp_name camp_name && ilike e.equipment_name equipment_name
    let home_elems := q_home.filter fun e => is_available e start_date end_date
    let available_home := home_elems.length
    let meets : Bool := decide (quantity ≤ (available_home : Int))
    let base : DemandResult :=
      { camp_name := camp_name
        req_equipment_name := equipment_name
        req_start_date := start_date
        req_end_date := end_date
        req_quantity := quantity
        available := available_home
        meets_requirement := meets
        show_map := !meets
        center_lat := home_ws.location_lat
        center_lon := home_ws.location_lon
        radius_km := radius_km
        alternatives := [] }
    if meets then .ok base
    else
      let alts := rawAlts db camp_name equipment_name start_date end_date
        radius_km home_ws
      .ok { base with alternatives := sortAlts alts }

/-- Modelled from the spec: the home-camp available count as §4.3 words it
(case-insensitive SUBSTRING matching on camp and type), kept separate from
the code's `ilike` matching so the two can be compared. -/
def specSubstringCount (db : DB) (camp_name equipment_name : String)
    (s t : Int) : Nat :=
  (db.equipment.filter fun e =>
    substrCI camp_name e.camp_name && substrCI equipment_name e.equipment_name &&
      is_available e s t).length

/-- Concrete workshop row used by the closed instance theorems below. -/
noncomputable def w1 : Workshop :=
  { workshop_id := "WS1", camp_name := "Camp1"
    location_lat := some 10, location_lon := some 20 }

/-- Concrete equipment row: ready to use, no occupancy window, and with a
type name that merely CONTAINS the requested type as a substring. -/
def eMini : Equipment :=
  { equipment_id := 1, equipment_name := "Mini Excavator", camp_name := "Camp1"
    region := none, status := "ReadyToUse", next_maintenance_date := none
    start_date := none, end_date := none }

/-- Concrete store: one workshop, one equipment row. -/
noncomputable def db2 : DB := { workshops := [w1], equipment := [eMini] }

/-- Concrete workshop whose latitude is absent. -/
noncomputable def wA : Workshop :=
  { workshop_id := "WS1", camp_name := "Camp1"
    location_lat := none, location_lon := some 20 }

/-- Concrete workshop with full coordinates, a candidate alternative. -/
noncomputable def wB : Workshop :=
  { workshop_id := "WS2", camp_name := "Camp2"
    location_lat := some 1, location_lon := some 2 }

/-- Concrete store whose home workshop lacks its latitude. -/
noncomputable def db10 : DB := { workshops := [wA, wB], equipment := [] }

/-- Result of `check_demand db2 "Camp1" "Excavator" 0 10 1 15`. -/
noncomputable def r2 : DemandResult :=
  { camp_name := "Camp1", req_equipment_name := "Excavator"
    req_start_date := 0, req_end_date := 10, req_quantity := 1
    available := 0, meets_requirement := false, show_map := true
    center_lat := some 10, center_lon := some 20, radius_km := 15
    alternatives := [] }

/-- Result of `check_demand db2 "Camp1" "Excavator" 0 10 0 15`. -/
noncomputable def r7 : DemandResult :=
  { camp_name := "Camp1", req_equipment_name := "Excavator"
    req_start_date := 0, req_end_date := 10, req_quantity := 0
    available := 0, meets_requirement := true, show_map := false
    center_lat := some 10, center_lon := some 20, radius_km := 15
    alternatives := [] }

/-- Result of `check_demand db10 "Camp1" "Excavator" 0 10 3 15`. -/
noncomputable def r10 : DemandResult :=
  { camp_name := "Camp1", req_equipment_name := "Excavator"
    req_start_date := 0, req_end_date := 10, req_quantity := 3
    available := 0, meets_requirement := false, show_map := true
    center_lat := none, center_lon := some 20, radius_km := 15
    alternatives := [] }

theorem hv_none_iff (a b c d : Option ℝ) :
    haversine_km a b c d = none ↔
      a = none ∨ b = none ∨ c = none ∨ d = none := by
  cases a <;> cases b <;> cases c <;> cases d <;> simp [haversine_km]

/-- C1: the availability predicate is a total Boolean test of one record
and a closed window `[a, b]`: true exactly when the status is `ReadyToUse`
and either an own date is missing or both own dates `[s, t]` fail the
closed-interval overlap test `s ≤ b ∧ a ≤ t`; in particular false for any
status other than `ReadyToUse`. -/
theorem is_available_iff (e : Equipment) (a b : Int) :
    is_available e a b = true ↔
      (e.status = "ReadyToUse" ∧
        ((e.start_date = none ∨ e.end_date = none) ∨
          ∃ s t, e.start_date = some s ∧ e.end_date = some t ∧
            ¬(s ≤ b ∧ a ≤ t))) := by
  unfold is_available
  by_cases h : e.status = "ReadyToUse"
  · cases hs : e.start_date <;> cases ht : e.end_date <;>
      simp [h, hs, ht]
    omega
  · simp [h]

/-- C8: the distance calculator yields the unknown sentinel (`none`) exactly
when one of the four coordinate values is absent; with all four present it
yields an actual distance. -/
theorem haversine_unknown_iff (a b c d : Option ℝ) :
    haversine_km a b c d = none ↔
      a = none ∨ b = none ∨ c = none ∨ d = none :=
  hv_none_iff a b c d

/-- C9: with coordinates present, the distance of a point to itself is
exactly 0, and the distance function is symmetric in its two endpoints. -/
theorem haversine_self_and_symm :
    (∀ lat lon : ℝ,
        haversine_km (some lat) (some lon) (some lat) (some lon) = some 0) ∧
      ∀ lat1 lon1 lat2 lon2 : ℝ,
        haversine_km (some lat1) (some lon1) (some lat2) (some lon2) =
          haversine_km (some lat2) (some lon2) (some lat1) (some lon1) := by
  have key : ∀ x y : ℝ,
      Real.sin (radians (x - y) / 2) ^ 2 = Real.sin (radians (y - x) / 2) ^ 2 := by
    intro x y
    have hx : radians (x - y) = -radians (y - x) := by unfold radians; ring
    rw [hx, neg_div, Real.sin_neg, neg_sq]
  constructor
  · intro lat lon
    simp [haversine_km, haversine_core, radians, sub_self]
  · intro lat1 lon1 lat2 lon2
    simp only [haversine_km, haversine_core, Option.some.injEq]
    rw [key lat2 lat1, key lon2 lon1,
      mul_comm (Real.cos (radians lat1)) (Real.cos (radians lat2))]

theorem check_demand_none (db : DB) (c e : String) (s t q : Int) (rad : ℝ)
    (hfind : db.workshops.find? (fun w => ilike w.camp_name c) = none) :
    check_demand db c e s t q rad =
      .error ⟨404, "Camp '" ++ c ++ "' not found in workshops table"⟩ := by
  unfold check_demand
  rw [hfind]

theorem check_demand_ok_profile (db : DB) (c e : String) (s t q : Int)
    (rad : ℝ) (home : Workshop) (r : DemandResult)
    (hfind : db.workshops.find? (fun w => ilike w.camp_name c) = some home)
    (h : check_demand db c e s t q rad = .ok r) :
    r.available = ((db.equipment.filter fun x =>
        ilike x.camp_name c && ilike x.equipment_name e).filter fun x =>
          is_available x s t).length ∧
      r.meets_requirement = decide (q ≤ (r.available : Int)) ∧
      (r.meets_requirement = true → r.alternatives = []) ∧
      (r.meets_requirement = false →
        r.alternatives = sortAlts (rawAlts db c e s t rad home)) := by
  unfold check_demand at h
  rw [hfind] at h
  simp only [] at h
  by_cases hm : q ≤ (((db.equipment.filter fun x =>
      ilike x.camp_name c && ilike x.equipment_name e).filter fun x =>
        is_available x s t).length : Int)
  · rw [if_pos (decide_eq_true hm)] at h
    cases h
    exact ⟨rfl, rfl, fun _ => rfl,
      fun hf => Bool.noConfusion ((decide_eq_true hm).symm.trans hf)⟩
  · rw [if_neg fun hc => hm (of_decide_eq_true hc)] at h
    cases h
    exact ⟨rfl, rfl, fun hmt => absurd (of_decide_eq_true hmt) hm, fun _ => rfl⟩

/-- C2 counterexample: in a store where the only matching-by-substring
equipment is named "Mini Excavator", the spec's substring count for request
type "Excavator" is 1, yet the code reports 0 available (SQL LIKE with the
raw request string is exact matching, not substring). -/
theorem home_count_substring_cex :
    specSubstringCount db2 "Camp1" "Excavator" 0 10 = 1 ∧
      (check_demand db2 "Camp1" "Excavator" 0 10 1 15).toOption.map
          (fun r => r.available) = some 0 :=
  ⟨rfl, rfl⟩

/-- C2 (amended): on success, the home available count is the number of
equipment records whose camp_name matches the requested camp and whose
equipment_name matches the requested type as case-insensitive SQL LIKE
patterns (exact case-insensitive equality when the request has no
wildcards) and which pass the availability test; meets_requirement is true
iff that count is at least the requested quantity. -/
theorem home_available_like (db : DB) (c e : String) (s t q : Int) (rad : ℝ)
    (r : DemandResult) (h : check_demand db c e s t q rad = .ok r) :
    r.available = (db.equipment.filter fun x =>
        (ilike x.camp_name c && ilike x.equipment_name e) &&
          is_available x s t).length ∧
      (r.meets_requirement = true ↔ q ≤ (r.available : Int)) := by
  cases hfind : db.workshops.find? (fun w => ilike w.camp_name c) with
  | none =>
    exact Except.noConfusion
      ((check_demand_none db c e s t q rad hfind).symm.trans h)
  | some home =>
    obtain ⟨hav, hmeets, -, -⟩ :=
      check_demand_ok_profile db c e s t q rad home r hfind h
    refine ⟨?_, ?_⟩
    · rw [hav, List.filter_filter]
      exact congrArg List.length (List.filter_congr fun a _ => Bool.and_comm _ _)
    · rw [hmeets]
      simp

/-- C2 witness: the amended count theorem at the concrete store. -/
theorem home_available_like_witness :
    r2.available = (db2.equipment.filter fun x =>
        (ilike x.camp_name "Camp1" && ilike x.equipment_name "Excavator") &&
          is_available x 0 10).length ∧
      (r2.meets_requirement = true ↔ (1 : Int) ≤ (r2.available : Int)) :=
  home_available_like db2 "Camp1" "Excavator" 0 10 1 15 r2 rfl

/-- C6 counterexample: with request camp name "%" no workshop camp_name
matches case-insensitively as a plain string, yet the lookup succeeds:
the raw request is used as a LIKE pattern and "%" matches everything. -/
theorem camp_lookup_wildcard_cex :
    (db2.workshops.all fun w => !(lowerStr w.camp_name == lowerStr "%")) = true ∧
      (check_demand db2 "%" "Excavator" 0 10 0 15).toOption.isSome = true :=
  ⟨rfl, rfl⟩

/-- C6 (amended): the lookup fails, with the 404 camp-not-found error, if
and only if no workshop camp_name matches the requested camp name as a
case-insensitive LIKE pattern (for wildcard-free requests this is
case-insensitive equality); whenever some workshop matches, the call
returns a populated result. -/
theorem camp_lookup_like_iff (db : DB) (c e : String) (s t q : Int) (rad : ℝ) :
    ((check_demand db c e s t q rad).toOption.isSome = true ↔
        (db.workshops.any fun w => ilike w.camp_name c) = true) ∧
      ((db.workshops.any fun w => ilike w.camp_name c) = false →
        check_demand db c e s t q rad =
          .error ⟨404, "Camp '" ++ c ++ "' not found in workshops table"⟩) := by
  cases hfind : db.workshops.find? (fun w => ilike w.camp_name c) with
  | none =>
    have herr := check_demand_none db c e s t q rad hfind
    have hany : (db.workshops.any fun w => ilike w.camp_name c) = false := by
      rw [Bool.eq_false_iff]
      intro hta
      obtain ⟨w, hw, hpw⟩ := List.any_eq_true.mp hta
      exact (List.find?_eq_none.mp hfind w hw) hpw
    exact ⟨by rw [herr, hany]; simp [Except.toOption], fun _ => herr⟩
  | some home =>
    have hp := List.find?_some hfind
    have hany : (db.workshops.any fun w => ilike w.camp_name c) = true :=
      List.any_eq_true.mpr ⟨home, List.mem_of_find?_eq_some hfind, hp⟩
    constructor
    · rw [hany]
      simp only [iff_true]
      unfold check_demand
      rw [hfind]
      simp only []
      split <;> rfl
    · intro hfalse
      rw [hany] at hfalse
      cases hfalse

/-- C7: whenever the result reports the requirement met, its alternatives
list is empty (the alternative-camp scan is skipped). -/
theorem meets_no_alternatives (db : DB) (c e : String) (s t q : Int) (rad : ℝ)
    (r : DemandResult) (h : check_demand db c e s t q rad = .ok r)
    (hm : r.meets_requirement = true) : r.alternatives = [] := by
  cases hfind : db.workshops.find? (fun w => ilike w.camp_name c) with
  | none =>
    exact Except.noConfusion
      ((check_demand_none db c e s t q rad hfind).symm.trans h)
  | some home =>
    exact (check_demand_ok_profile db c e s t q rad home r hfind h).2.2.1 hm

/-- C7 witness: a satisfied request (quantity 0) yields no alternatives. -/
theorem meets_no_alternatives_witness : r7.alternatives = [] :=
  meets_no_alternatives db2 "Camp1" "Excavator" 0 10 0 15 r7 rfl rfl

/-- C10: if the home workshop found for the camp lacks its latitude or its
longitude, the result's alternatives list is empty for every request:
every candidate's distance is the unknown sentinel and is skipped. -/
theorem missing_home_coords_no_alternatives (db : DB) (c e : String)
    (s t q : Int) (rad : ℝ) (home : Workshop) (r : DemandResult)
    (hfind : db.workshops.find? (fun w => ilike w.camp_name c) = some home)
    (hc : home.location_lat = none ∨ home.location_lon = none)
    (h : check_demand db c e s t q rad = .ok r) :
    r.alternatives = [] := by
  obtain ⟨-, -, hmt, hmf⟩ :=
    check_demand_ok_profile db c e s t q rad home r hfind h
  cases hb : r.meets_requirement with
  | true => exact hmt hb
  | false =>
    rw [hmf hb]
    have hraw : rawAlts db c e s t rad home = [] := by
      unfold rawAlts
      rw [List.filterMap_eq_nil_iff]
      intro ws _
      unfold buildAlt
      by_cases hn : lowerStr ws.camp_name = lowerStr c
      · rw [if_pos hn]
      · rw [if_neg hn]
        have hnone : haversine_km home.location_lat home.location_lon
            ws.location_lat ws.location_lon = none :=
          (hv_none_iff _ _ _ _).mpr (hc.imp id Or.inl)
        rw [hnone]
    rw [hraw]
    rfl

/-- C10 witness: a home workshop with absent latitude and a second in-range
workshop still produce an empty alternatives list. -/
theorem missing_home_coords_no_alternatives_witness : r10.alternatives = [] :=
  missing_home_coords_no_alternatives db10 "Camp1" "Excavator" 0 10 3 15 wA r10
    rfl (Or.inl rfl) rfl

theorem tally_eq (s t : Int) (l : List Equipment) :
    tally s t l =
      (l.countP fun x => x.status == "ReadyToUse" && is_available x s t,
        l.countP fun x => x.status == "UnderMaintenance") := by
  induction l with
  | nil => rfl
  | cons x rest ih =>
    unfold tally
    rw [ih]
    cases h1 : (x.status == "UnderMaintenance") with
    | true =>
      have hst : x.status = "UnderMaintenance" := by simpa using h1
      have hp1 : (x.status == "ReadyToUse") = false := by rw [hst]; rfl
      simp [List.countP_cons, h1, hp1]
    | false =>
      cases h2 : (x.status == "ReadyToUse" && is_available x s t) with
      | true => simp [List.countP_cons, h1, h2]
      | false => simp [List.countP_cons, h1, h2]

theorem altLE_total : ∀ a b : AltEntry, altLE a b ∨ altLE b a := by
  intro a b
  rcases lt_trichotomy a.distance_km b.distance_km with h | h | h
  · exact Or.inl (Or.inl h)
  · rcases Nat.le_total b.ready_to_use a.ready_to_use with hn | hn
    · exact Or.inl (Or.inr ⟨h, hn⟩)
    · exact Or.inr (Or.inr ⟨h.symm, hn⟩)
  · exact Or.inr (Or.inl h)

theorem altLE_trans : ∀ a b c : AltEntry, altLE a b → altLE b c → altLE a c := by
  intro a b c hab hbc
  rcases hab with h1 | ⟨h1, h1r⟩
  · rcases hbc with h2 | ⟨h2, h2r⟩
    · exact Or.inl (h1.trans h2)
    · exact Or.inl (lt_of_lt_of_eq h1 h2)
  · rcases hbc with h2 | ⟨h2, h2r⟩
    · exact Or.inl (lt_of_eq_of_lt h1 h2)
    · exact Or.inr ⟨h1.trans h2, Nat.le_trans h2r h1r⟩

instance : IsTotal AltEntry altLE := ⟨altLE_total⟩

instance : IsTrans AltEntry altLE := ⟨fun a b c => altLE_trans a b c⟩

theorem buildAlt_some (db : DB) (c e : String) (s t : Int) (rad : ℝ)
    (home ws : Workshop) (alt : AltEntry)
    (h : buildAlt db c e s t rad home ws = some alt) :
    alt.camp_name = ws.camp_name ∧
      lowerStr ws.camp_name ≠ lowerStr c ∧
      (∃ d, haversine_km home.location_lat home.location_lon ws.location_lat
          ws.location_lon = some d ∧ d ≤ rad) ∧
      alt.ready_to_use = ((db.equipment.filter fun x =>
          ilike x.camp_name ws.camp_name && ilike x.equipment_name e).countP
            fun x => x.status == "ReadyToUse" && is_available x s t) ∧
      alt.under_maintenance = ((db.equipment.filter fun x =>
          ilike x.camp_name ws.camp_name && ilike x.equipment_name e).countP
            fun x => x.status == "UnderMaintenance") := by
  unfold buildAlt at h
  by_cases hn : lowerStr ws.camp_name = lowerStr c
  · rw [if_pos hn] at h
    cases h
  · rw [if_neg hn] at h
    cases hd : haversine_km home.location_lat home.location_lon
        ws.location_lat ws.location_lon with
    | none =>
      rw [hd] at h
      cases h
    | some dist =>
      rw [hd] at h
      simp only [] at h
      by_cases hr : rad < dist
      · rw [if_pos hr] at h
        cases h
      · rw [if_neg hr] at h
        cases h
        refine ⟨rfl, hn, ⟨dist, rfl, not_lt.mp hr⟩, ?_, ?_⟩ <;> rw [tally_eq]

/-- C3: the alternatives list of every successful result is sorted:
ascending by (rounded) distance, equal distances ordered by descending
ready-to-use count. -/
theorem alternatives_sorted (db : DB) (c e : String) (s t q : Int) (rad : ℝ)
    (r : DemandResult) (h : check_demand db c e s t q rad = .ok r) :
    r.alternatives.Pairwise altLE := by
  cases hfind : db.workshops.find? (fun w => ilike w.camp_name c) with
  | none =>
    exact Except.noConfusion
      ((check_demand_none db c e s t q rad hfind).symm.trans h)
  | some home =>
    obtain ⟨-, -, hmt, hmf⟩ :=
      check_demand_ok_profile db c e s t q rad home r hfind h
    cases hb : r.meets_requirement with
    | true =>
      rw [hmt hb]
      exact List.Pairwise.nil
    | false =>
      rw [hmf hb]
      exact List.sorted_insertionSort altLE (rawAlts db c e s t rad home)

/-- C3 witness: the sortedness theorem applied at a concrete store. -/
theorem alternatives_sorted_witness : r2.alternatives.Pairwise altLE :=
  alternatives_sorted db2 "Camp1" "Excavator" 0 10 1 15 r2 rfl

/-- C4: every emitted alternative entry carries as ready_to_use the count
of matching equipment at its camp with status ReadyToUse passing the
availability test, and as under_maintenance the count of matching
equipment with status exactly UnderMaintenance, with no date filtering;
everything else counts in neither. -/
theorem alternative_counts (db : DB) (c e : String) (s t q : Int) (rad : ℝ)
    (r : DemandResult) (h : check_demand db c e s t q rad = .ok r) :
    r.alternatives.Forall fun alt =>
      alt.ready_to_use = ((db.equipment.filter fun x =>
          ilike x.camp_name alt.camp_name && ilike x.equipment_name e).countP
            fun x => x.status == "ReadyToUse" && is_available x s t) ∧
        alt.under_maintenance = ((db.equipment.filter fun x =>
          ilike x.camp_name alt.camp_name && ilike x.equipment_name e).countP
            fun x => x.status == "UnderMaintenance") := by
  rw [List.forall_iff_forall_mem]
  intro alt hmem
  cases hfind : db.workshops.find? (fun w => ilike w.camp_name c) with
  | none =>
    exact Except.noConfusion
      ((check_demand_none db c e s t q rad hfind).symm.trans h)
  | some home =>
    obtain ⟨-, -, hmt, hmf⟩ :=
      check_demand_ok_profile db c e s t q rad home r hfind h
    cases hb : r.meets_requirement with
    | true =>
      rw [hmt hb] at hmem
      exact absurd hmem (List.not_mem_nil alt)
    | false =>
      rw [hmf hb] at hmem
      unfold sortAlts at hmem
      have hmem2 : alt ∈ rawAlts db c e s t rad home :=
        (List.perm_insertionSort altLE (rawAlts db c e s t rad home)).subset hmem
      unfold rawAlts at hmem2
      obtain ⟨ws, -, hba⟩ := List.mem_filterMap.mp hmem2
      obtain ⟨hname, -, -, hrd, hum⟩ := buildAlt_some db c e s t rad home ws alt hba
      rw [hname]
      exact ⟨hrd, hum⟩

/-- C4 witness: the counts theorem applied at a concrete store. -/
theorem alternative_counts_witness :
    r2.alternatives.Forall fun alt =>
      alt.ready_to_use = ((db2.equipment.filter fun x =>
          ilike x.camp_name alt.camp_name &&
            ilike x.equipment_name "Excavator").countP
            fun x => x.status == "ReadyToUse" && is_available x 0 10) ∧
        alt.under_maintenance = ((db2.equipment.filter fun x =>
          ilike x.camp_name alt.camp_name &&
            ilike x.equipment_name "Excavator").countP
            fun x => x.status == "UnderMaintenance") :=
  alternative_counts db2 "Camp1" "Excavator" 0 10 1 15 r2 rfl

/-- C5: every emitted alternative entry comes from a workshop whose camp
name differs case-insensitively from the requested camp, whose distance to
the home workshop is known, and whose distance is within the radius. -/
theorem alternative_membership (db : DB) (c e : String) (s t q : Int)
    (rad : ℝ) (home : Workshop) (r : DemandResult)
    (hfind : db.workshops.find? (fun w => ilike w.camp_name c) = some home)
    (h : check_demand db c e s t q rad = .ok r) :
    r.alternatives.Forall fun alt => ∃ ws, ws ∈ db.workshops ∧
      ws.camp_name = alt.camp_name ∧
      lowerStr ws.camp_name ≠ lowerStr c ∧
      ∃ d, haversine_km home.location_lat home.location_lon ws.location_lat
          ws.location_lon = some d ∧ d ≤ rad := by
  rw [List.forall_iff_forall_mem]
  intro alt hmem
  obtain ⟨-, -, hmt, hmf⟩ :=
    check_demand_ok_profile db c e s t q rad home r hfind h
  cases hb : r.meets_requirement with
  | true =>
    rw [hmt hb] at hmem
    exact absurd hmem (List.not_mem_nil alt)
  | false =>
    rw [hmf hb] at hmem
    unfold sortAlts at hmem
    have hmem2 : alt ∈ rawAlts db c e s t rad home :=
      (List.perm_insertionSort altLE (rawAlts db c e s t rad home)).subset hmem
    unfold rawAlts at hmem2
    obtain ⟨ws, hws, hba⟩ := List.mem_filterMap.mp hmem2
    obtain ⟨hname, hne, hdist, -, -⟩ :=
      buildAlt_some db c e s t rad home ws alt hba
    exact ⟨ws, hws, hname.symm, hne, hdist⟩

/-- C5 witness: the membership theorem applied at a concrete store. -/
theorem alternative_membership_witness :
    r2.alternatives.Forall fun alt => ∃ ws, ws ∈ db2.workshops ∧
      ws.camp_name = alt.camp_name ∧
      lowerStr ws.camp_name ≠ lowerStr "Camp1" ∧
      ∃ d, haversine_km w1.location_lat w1.location_lon ws.location_lat
          ws.location_lon = some d ∧ d ≤ (15 : ℝ) :=
  alternative_membership db2 "Camp1" "Excavator" 0 10 1 15 w1 r2 rfl rfl

end FleetApi
